import Mathlib

/-
Verification of the network device configuration tool
(`configuration_tool.py`, implemented version under `task-4/`).

The Python module is shallowly embedded as follows:

* Inventory records (Python dicts) are association lists `List (String × String)`;
  a missing key raises `KeyError`, modelled by `PyError.keyError`.
* The Netmiko library is modelled by an environment `NetEnv` that decides, for
  each call the module makes (`ConnectHandler`, `conn.enable()`,
  `conn.send_command(...)`, `conn.send_config_set(...)`), whether the call
  returns normally or raises, and with what string.
* Side effects (printing, opening/closing sessions, sending commands) are made
  observable as an event trace `List Event` returned next to each result.
* Jinja2 rendering of the two fixed templates is plain string concatenation
  (the templates contain no constructs beyond variable substitution; Jinja2's
  default `keep_trailing_newline = false` drops the template's final newline,
  which is irrelevant after line splitting).
* Python `str.splitlines` and `str.strip` are modelled faithfully on the
  line-boundary and whitespace character sets Python uses (ASCII/Latin-1
  whitespace plus the Unicode space and line/paragraph separator characters).
-/

/-- Line-boundary characters of Python `str.splitlines`
(besides the two-character boundary `"\r\n"`, handled separately). -/
def lineBreakChar (c : Char) : Bool :=
  c = '\n' || c = '\r' || c = '\x0b' || c = '\x0c' ||
  c = '\x1c' || c = '\x1d' || c = '\x1e' || c = '\x85' ||
  c = ' ' || c = ' '

/-- Characters stripped by Python `str.strip()` (those with `str.isspace()`). -/
def pyIsSpace (c : Char) : Bool :=
  c = ' ' || c = '\t' || c = '\n' || c = '\x0b' || c = '\x0c' || c = '\r' ||
  c = '\x1c' || c = '\x1d' || c = '\x1e' || c = '\x1f' || c = '\x85' ||
  c = '\xa0' || c = ' ' ||
  c = ' ' || c = ' ' || c = ' ' || c = ' ' ||
  c = ' ' || c = ' ' || c = ' ' || c = ' ' ||
  c = ' ' || c = ' ' || c = ' ' ||
  c = ' ' || c = ' ' || c = ' ' || c = ' ' || c = '　'

/-- Collapse the two-character line boundary `"\r\n"` into a single `'\n'`,
so that line splitting can treat every boundary as one character. -/
def collapseCRLF : List Char → List Char
  | '\r' :: '\n' :: rest => '\n' :: collapseCRLF rest
  | c :: rest => c :: collapseCRLF rest
  | [] => []

/-- Split at single-character line boundaries, accumulator style: `acc` holds
the (reversed) characters of the current line.  Mirrors Python `splitlines`:
no trailing empty line when the text ends with a boundary, and an empty input
yields no lines at all. -/
def splitBreaksAux (acc : List Char) : List Char → List String
  | [] => if acc.isEmpty then [] else [String.mk acc.reverse]
  | c :: rest =>
    if lineBreakChar c then String.mk acc.reverse :: splitBreaksAux [] rest
    else splitBreaksAux (c :: acc) rest

/-- Python `str.splitlines()`. -/
def pySplitLines (s : String) : List String :=
  splitBreaksAux [] (collapseCRLF s.data)

/-- Python `str.strip()` (no argument): remove leading and trailing
whitespace characters. -/
def pyStrip (s : String) : String :=
  String.mk (((s.data.dropWhile pyIsSpace).reverse.dropWhile pyIsSpace).reverse)

/-- A Python error escaping a function. `keyError k` models `KeyError` from a
dict lookup `d[k]`; `exception msg` models any other raised `Exception`. -/
inductive PyError
  | keyError (key : String)
  | exception (msg : String)
deriving DecidableEq

/-- The dict returned by `get_conn_info`: Netmiko connection parameters. -/
structure ConnInfo where
  device_type : String
  host : String
  username : String
  password : String
  secret : String
deriving DecidableEq

/-- Result of a call into the Netmiko library: normal return or a raised
`Exception` (carrying `str(e)`). -/
inductive PyResult (α : Type)
  | ok (val : α)
  | exn (msg : String)
deriving DecidableEq

/-- Model of the Netmiko library: for each call the module makes, whether it
returns normally or raises, and the returned text. -/
structure NetEnv where
  /-- `ConnectHandler(**device)`: session open. -/
  connectResult : ConnInfo → PyResult Unit
  /-- `conn.enable()`: privilege elevation. -/
  enableResult : ConnInfo → PyResult Unit
  /-- `conn.send_command(cmd)`: raw device output for a show command. -/
  commandResult : String → PyResult String
  /-- `conn.send_config_set(cmds)`: device output for a config batch. -/
  configSetResult : List String → PyResult String

/-- Observable side effects of the module, in order of occurrence. -/
inductive Event
  | printed (line : String)
  | opened (host : String)
  | enabled
  | sentCommand (cmd : String)
  | sentConfigSet (cmds : List String)
  | disconnected
deriving DecidableEq

/-- Does an event send anything to the device? -/
def isSendEvent : Event → Bool
  | .sentCommand _ => true
  | .sentConfigSet _ => true
  | _ => false

/-- Python dict lookup `d[k]`: the value, or `KeyError` when absent. -/
def dictGet (d : List (String × String)) (k : String) : Except PyError String :=
  match d.lookup k with
  | some v => .ok v
  | none => .error (.keyError k)

/-- `get_conn_info(dev_data)`: builds the Netmiko parameter dict
`{"device_type": "cisco_ios", "host": d["Management IP"], "username":
d["Username"], "password": d["Password"], "secret": d["Password"]}`.  Python
evaluates the dict values left to right, so the first missing key (in that
order) raises.  The function is pure: it only reads `dev_data`. -/
def get_conn_info (dev_data : List (String × String)) : Except PyError ConnInfo := do
  let host ← dictGet dev_data "Management IP"
  let username ← dictGet dev_data "Username"
  let password ← dictGet dev_data "Password"
  let secret ← dictGet dev_data "Password"
  pure ⟨"cisco_ios", host, username, password, secret⟩

/-- `connect_device(device)`: `try: conn = ConnectHandler(**device);
conn.enable(); return conn / except Exception as e:
print(f"Error connecting to device \x7bdevice.get('host')\x7d: \x7be\x7d");
return None`.  Returns the connection handle (modelled by the parameter
record) or `none`, together with the event trace.  Note that when
`ConnectHandler` succeeds but `enable()` raises, the opened session is not
closed (faithful to the source). -/
def connect_device (env : NetEnv) (device : ConnInfo) :
    Option ConnInfo × List Event :=
  match env.connectResult device with
  | .exn e =>
    (none, [.printed ("Error connecting to device " ++ device.host ++ ": " ++ e)])
  | .ok _ =>
    match env.enableResult device with
    | .exn e =>
      (none, [.opened device.host,
              .printed ("Error connecting to device " ++ device.host ++ ": " ++ e)])
    | .ok _ => (some device, [.opened device.host, .enabled])

/-- `send_command(connection, command)`: `if connection: return
connection.send_command(command)` else the sentinel string.  There is no
`try` here, so an exception from the device call propagates (the `.error`
case). -/
def send_command (env : NetEnv) (connection : Option ConnInfo)
    (command : String) : Except PyError String × List Event :=
  match connection with
  | some _ =>
    match env.commandResult command with
    | .ok out => (.ok out, [.sentCommand command])
    | .exn e => (.error (.exception e), [.sentCommand command])
  | none => (.ok "No connection available", [])

/-- `send_config(device, commands)`: open via `connect_device`; on `None`
return the fixed failure string; otherwise `try: output =
conn.send_config_set(commands) / except Exception as e: output = f"Error
sending configuration: \x7be\x7d" / finally: conn.disconnect()`; return
`output`. -/
def send_config (env : NetEnv) (device : ConnInfo) (commands : List String) :
    String × List Event :=
  match connect_device env device with
  | (none, tr) => ("Connection failed; configuration not sent.", tr)
  | (some _, tr) =>
    match env.configSetResult commands with
    | .ok out => (out, tr ++ [.sentConfigSet commands, .disconnected])
    | .exn e => ("Error sending configuration: " ++ e,
                 tr ++ [.sentConfigSet commands, .disconnected])

/-- `render_interface_config(action, interface, ip_address, subnet_mask)`:
selects one of the two fixed Jinja2 templates (`action == "create"` gives the
3-line create stanza, anything else the delete stanza), renders it by variable
substitution, then returns `[line.strip() for line in
rendered.splitlines() if line.strip()]`. -/
def render_interface_config (action interface ip_address subnet_mask : String) :
    List String :=
  let rendered :=
    if action = "create" then
      "\ninterface " ++ interface ++ "\nip address " ++ ip_address ++ " " ++
        subnet_mask ++ "\nno shutdown"
    else
      "\ninterface " ++ interface ++ "\nno ip address\nshutdown"
  ((pySplitLines rendered).map pyStrip).filter (fun l => l ≠ "")

/-- `get_interface_brief(device)`: same lifecycle as `send_config` with the
hardcoded command `"show ip interface brief"` sent via `conn.send_command`,
its own failure string and its own error prefix. -/
def get_interface_brief (env : NetEnv) (device : ConnInfo) :
    String × List Event :=
  match connect_device env device with
  | (none, tr) => ("Connection failed; cannot retrieve interface brief.", tr)
  | (some _, tr) =>
    match env.commandResult "show ip interface brief" with
    | .ok out => (out, tr ++ [.sentCommand "show ip interface brief", .disconnected])
    | .exn e => ("Error retrieving interface brief: " ++ e,
                 tr ++ [.sentCommand "show ip interface brief", .disconnected])

/-
The top-level `configuration_tool.py` (outside `task-4/`): `get_conn_info`
is identical to the task-4 version, while the bodies of `connect_device`,
`send_command`, `send_config`, `render_interface_config` and
`get_interface_brief` are the single statement `pass`, so each returns
`None` for every input (modelled as a constant `none` of an `Option` type).
-/
namespace Root

/-- Top-level file `get_conn_info`: its body is textually identical to the
task-4 version, so the embedding repeats the same definition. -/
def rootGetConnInfo (dev_data : List (String × String)) : Except PyError ConnInfo := do
  let host ← dictGet dev_data "Management IP"
  let username ← dictGet dev_data "Username"
  let password ← dictGet dev_data "Password"
  let secret ← dictGet dev_data "Password"
  pure ⟨"cisco_ios", host, username, password, secret⟩

/-- Top-level file `connect_device`: the body is `pass`, returning `None`. -/
def connect_device (env : NetEnv) (device : ConnInfo) : Option ConnInfo :=
  none

/-- Top-level file `send_command`: the body is `pass`, returning `None`. -/
def send_command (env : NetEnv) (connection : Option ConnInfo)
    (command : String) : Option String :=
  none

/-- Top-level file `send_config`: the body is `pass`, returning `None`. -/
def send_config (env : NetEnv) (device : ConnInfo) (commands : List String) :
    Option String :=
  none

/-- Top-level file `render_interface_config`: the body is `pass`,
returning `None`. -/
def render_interface_config (action interface ip_address subnet_mask : String) :
    Option (List String) :=
  none

/-- Top-level file `get_interface_brief`: the body is `pass`,
returning `None`. -/
def get_interface_brief (env : NetEnv) (device : ConnInfo) : Option String :=
  none

end Root

/-
Supporting lemmas about the Python string primitives.
-/

/-- A character that is not a line boundary is in particular not `'\r'`. -/
theorem ne_cr_of_not_break {c : Char} (h : lineBreakChar c = false) : c ≠ '\r' := by
  intro hc
  subst hc
  simp [lineBreakChar] at h

/-- `collapseCRLF` steps over any head character other than `'\r'`. -/
theorem collapseCRLF_cons (c : Char) (l : List Char) (hc : c ≠ '\r') :
    collapseCRLF (c :: l) = c :: collapseCRLF l := by
  rw [collapseCRLF.eq_def]
  split
  · rename_i heq
    cases heq
    exact absurd rfl hc
  · rename_i heq
    injection heq with hA hB
    subst hA
    subst hB
    rfl
  · rename_i heq
    cases heq

/-- `collapseCRLF` is the identity on texts without `'\r'`. -/
theorem collapseCRLF_of_no_cr :
    ∀ l : List Char, (∀ c ∈ l, c ≠ '\r') → collapseCRLF l = l := by
  intro l
  induction l with
  | nil => intro _; rfl
  | cons c rest ih =>
    intro h
    rw [collapseCRLF_cons c rest (h c (List.mem_cons_self c rest))]
    rw [ih (fun d hd => h d (List.mem_cons_of_mem c hd))]

/-- `splitBreaksAux` accumulates a break-free prefix. -/
theorem splitBreaksAux_append (xs : List Char) :
    ∀ acc rest, (∀ c ∈ xs, lineBreakChar c = false) →
      splitBreaksAux acc (xs ++ rest) = splitBreaksAux (xs.reverse ++ acc) rest := by
  induction xs with
  | nil => intro acc rest _; rfl
  | cons c xs ih =>
    intro acc rest h
    have hc : lineBreakChar c = false := h c (List.mem_cons_self c xs)
    simp only [List.cons_append, splitBreaksAux, hc, Bool.false_eq_true, if_false]
    show splitBreaksAux (c :: acc) (xs ++ rest) = splitBreaksAux ((c :: xs).reverse ++ acc) rest
    rw [ih (c :: acc) rest (fun d hd => h d (List.mem_cons_of_mem c hd))]
    simp [List.append_assoc]

/-- `splitBreaksAux` emits the accumulated line at a `'\n'` boundary. -/
theorem splitBreaksAux_newline (acc rest : List Char) :
    splitBreaksAux acc ('\n' :: rest) =
      String.mk acc.reverse :: splitBreaksAux [] rest := by
  simp [splitBreaksAux, lineBreakChar]

/-- Splitting `'\n'`-separated break-free segments (as produced by the two
rendered templates) yields exactly the leading empty line and the three
segments. -/
theorem splitBreaks_three (l1 l2 l3 : List Char)
    (h1 : ∀ c ∈ l1, lineBreakChar c = false)
    (h2 : ∀ c ∈ l2, lineBreakChar c = false)
    (h3 : ∀ c ∈ l3, lineBreakChar c = false) (h3ne : l3 ≠ []) :
    splitBreaksAux [] ('\n' :: (l1 ++ ('\n' :: (l2 ++ ('\n' :: l3))))) =
      ["", String.mk l1, String.mk l2, String.mk l3] := by
  rw [splitBreaksAux_newline, splitBreaksAux_append l1 _ _ h1,
      splitBreaksAux_newline, splitBreaksAux_append l2 _ _ h2,
      splitBreaksAux_newline]
  have hend : splitBreaksAux [] l3 = [String.mk l3] := by
    have h0 : splitBreaksAux [] (l3 ++ []) = splitBreaksAux (l3.reverse ++ []) [] :=
      splitBreaksAux_append l3 [] [] h3
    rw [List.append_nil] at h0
    rw [h0]
    simp [splitBreaksAux, h3ne]
  rw [hend]
  simp

/-- Break-free segments compose under append. -/
theorem no_break_append {l1 l2 : List Char}
    (h1 : ∀ c ∈ l1, lineBreakChar c = false)
    (h2 : ∀ c ∈ l2, lineBreakChar c = false) :
    ∀ c ∈ l1 ++ l2, lineBreakChar c = false := by
  intro c hc
  rcases List.mem_append.mp hc with h | h
  · exact h1 c h
  · exact h2 c h

/-- Break-free segments compose under cons. -/
theorem no_break_cons {a : Char} {l : List Char}
    (ha : lineBreakChar a = false)
    (h : ∀ c ∈ l, lineBreakChar c = false) :
    ∀ c ∈ a :: l, lineBreakChar c = false := by
  intro c hc
  rcases List.mem_cons.mp hc with h1 | h1
  · subst h1; exact ha
  · exact h c h1

/-- A break-free segment contains no carriage return. -/
theorem no_cr_of_no_break {l : List Char}
    (h : ∀ c ∈ l, lineBreakChar c = false) : ∀ c ∈ l, c ≠ '\r' :=
  fun c hc => ne_cr_of_not_break (h c hc)

/-- Carriage-return freedom composes under append. -/
theorem no_cr_append {l1 l2 : List Char}
    (h1 : ∀ c ∈ l1, c ≠ '\r') (h2 : ∀ c ∈ l2, c ≠ '\r') :
    ∀ c ∈ l1 ++ l2, c ≠ '\r' := by
  intro c hc
  rcases List.mem_append.mp hc with h | h
  · exact h1 c h
  · exact h2 c h

/-- Carriage-return freedom composes under cons. -/
theorem no_cr_cons {a : Char} {l : List Char}
    (ha : a ≠ '\r') (h : ∀ c ∈ l, c ≠ '\r') : ∀ c ∈ a :: l, c ≠ '\r' := by
  intro c hc
  rcases List.mem_cons.mp hc with h1 | h1
  · subst h1; exact ha
  · exact h c h1

/-- `dropWhile` keeps a list whose head fails the predicate. -/
theorem dropWhile_cons_solid (p : Char → Bool) (a : Char) (l : List Char)
    (h : p a = false) : (a :: l).dropWhile p = a :: l := by
  simp [List.dropWhile_cons, h]

/-- `pyStrip` fixes a text unchanged by both end `dropWhile`s. -/
theorem pyStrip_mk (l : List Char)
    (h1 : l.dropWhile pyIsSpace = l)
    (h2 : l.reverse.dropWhile pyIsSpace = l.reverse) :
    pyStrip (String.mk l) = String.mk l := by
  show String.mk (((l.dropWhile pyIsSpace).reverse.dropWhile pyIsSpace).reverse) =
    String.mk l
  rw [h1, h2, List.reverse_reverse]

/-- A line `a :: (front ++ tail)` whose first character is not whitespace and
whose tail ends in a non-whitespace character is unchanged by `pyStrip`.
(The `headD ' '` form of the tail condition also forces `tail` nonempty,
since `' '` itself is whitespace.) -/
theorem pyStrip_front_tail (a : Char) (front tail : List Char)
    (hfa : pyIsSpace a = false)
    (hte : pyIsSpace (tail.reverse.headD ' ') = false) :
    pyStrip (String.mk (a :: (front ++ tail))) =
      String.mk (a :: (front ++ tail)) := by
  obtain ⟨d, r, htr, hd⟩ : ∃ d r, tail.reverse = d :: r ∧ pyIsSpace d = false := by
    cases htr : tail.reverse with
    | nil => rw [htr] at hte; simp [pyIsSpace] at hte
    | cons d r =>
      refine ⟨d, r, rfl, ?_⟩
      rw [htr] at hte
      simpa using hte
  apply pyStrip_mk
  · exact dropWhile_cons_solid _ a _ hfa
  · rw [List.reverse_cons, List.reverse_append, htr]
    simp only [List.cons_append]
    exact dropWhile_cons_solid _ d _ hd

/-- The create stanza renders to exactly its three trimmed lines whenever the
substituted values contain no line-boundary characters and the two values that
end a line (`interface`, `subnet_mask`) are nonempty and do not end in
whitespace. -/
theorem render_create_lines (interface ip_address subnet_mask : String)
    (hi : ∀ c ∈ interface.data, lineBreakChar c = false)
    (ha : ∀ c ∈ ip_address.data, lineBreakChar c = false)
    (hm : ∀ c ∈ subnet_mask.data, lineBreakChar c = false)
    (hie : pyIsSpace (interface.data.reverse.headD ' ') = false)
    (hme : pyIsSpace (subnet_mask.data.reverse.headD ' ') = false) :
    render_interface_config "create" interface ip_address subnet_mask =
      ["interface " ++ interface,
       "ip address " ++ ip_address ++ " " ++ subnet_mask,
       "no shutdown"] := by
  have hunfold : render_interface_config "create" interface ip_address subnet_mask =
      ((pySplitLines ("\ninterface " ++ interface ++ "\nip address " ++ ip_address ++
        " " ++ subnet_mask ++ "\nno shutdown")).map pyStrip).filter
        (fun l => l ≠ "") := rfl
  have hl1 : ∀ c ∈ "interface ".data ++ interface.data, lineBreakChar c = false :=
    no_break_append (by decide) hi
  have hl2 : ∀ c ∈ "ip address ".data ++ (ip_address.data ++ (' ' :: subnet_mask.data)),
      lineBreakChar c = false :=
    no_break_append (by decide) (no_break_append ha (no_break_cons (by decide) hm))
  have hl3 : ∀ c ∈ "no shutdown".data, lineBreakChar c = false := by decide
  have hdata : ("\ninterface " ++ interface ++ "\nip address " ++ ip_address ++
      " " ++ subnet_mask ++ "\nno shutdown").data =
      '\n' :: (("interface ".data ++ interface.data) ++
        ('\n' :: (("ip address ".data ++ (ip_address.data ++ (' ' :: subnet_mask.data))) ++
          ('\n' :: "no shutdown".data)))) := by
    simp only [String.data_append]
    simp [List.append_assoc, List.cons_append, List.singleton_append]
  have hnocr : ∀ c ∈ '\n' :: (("interface ".data ++ interface.data) ++
      ('\n' :: (("ip address ".data ++ (ip_address.data ++ (' ' :: subnet_mask.data))) ++
        ('\n' :: "no shutdown".data)))), c ≠ '\r' :=
    no_cr_cons (by decide)
      (no_cr_append (no_cr_of_no_break hl1)
        (no_cr_cons (by decide)
          (no_cr_append (no_cr_of_no_break hl2)
            (no_cr_cons (by decide) (no_cr_of_no_break hl3)))))
  have hsplit : pySplitLines ("\ninterface " ++ interface ++ "\nip address " ++
      ip_address ++ " " ++ subnet_mask ++ "\nno shutdown") =
      ["", String.mk ("interface ".data ++ interface.data),
       String.mk ("ip address ".data ++ (ip_address.data ++ (' ' :: subnet_mask.data))),
       String.mk "no shutdown".data] := by
    unfold pySplitLines
    rw [hdata, collapseCRLF_of_no_cr _ hnocr]
    exact splitBreaks_three _ _ _ hl1 hl2 hl3 (by decide)
  have hl1form : "interface ".data ++ interface.data =
      'i' :: ("nterface ".data ++ interface.data) := by
    rw [show "interface ".data = 'i' :: "nterface ".data from rfl, List.cons_append]
  have hl2form : "ip address ".data ++ (ip_address.data ++ (' ' :: subnet_mask.data)) =
      'i' :: (("p address ".data ++ (ip_address.data ++ [' '])) ++ subnet_mask.data) := by
    rw [show "ip address ".data = 'i' :: "p address ".data from rfl, List.cons_append]
    simp [List.append_assoc]
  have hstrip1 : pyStrip (String.mk ("interface ".data ++ interface.data)) =
      String.mk ("interface ".data ++ interface.data) := by
    rw [hl1form]
    exact pyStrip_front_tail 'i' _ interface.data (by decide) hie
  have hstrip2 : pyStrip (String.mk ("ip address ".data ++
      (ip_address.data ++ (' ' :: subnet_mask.data)))) =
      String.mk ("ip address ".data ++ (ip_address.data ++ (' ' :: subnet_mask.data))) := by
    rw [hl2form]
    exact pyStrip_front_tail 'i' _ subnet_mask.data (by decide) hme
  have hseq1 : String.mk ("interface ".data ++ interface.data) =
      "interface " ++ interface := rfl
  have hseq2 : String.mk ("ip address ".data ++
      (ip_address.data ++ (' ' :: subnet_mask.data))) =
      "ip address " ++ ip_address ++ " " ++ subnet_mask := by
    apply String.ext
    simp [String.data_append]
  have hne1 : ("interface " ++ interface) ≠ "" := by
    intro h
    have := congrArg String.data h
    simp [String.data_append] at this
  have hne2 : ("ip address " ++ ip_address ++ " " ++ subnet_mask) ≠ "" := by
    intro h
    have := congrArg String.data h
    simp [String.data_append] at this
  rw [hunfold, hsplit]
  simp only [List.map_cons, List.map_nil, show pyStrip "" = "" from rfl,
    hstrip1, hstrip2, show pyStrip (String.mk "no shutdown".data) =
      String.mk "no shutdown".data from by decide]
  rw [hseq1, hseq2]
  simp [List.filter, hne1, hne2]

/-- Any action other than `"create"` renders the delete stanza to exactly its
three trimmed lines, under the same conditions on `interface`. -/
theorem render_delete_lines (action interface ip_address subnet_mask : String)
    (hact : action ≠ "create")
    (hi : ∀ c ∈ interface.data, lineBreakChar c = false)
    (hie : pyIsSpace (interface.data.reverse.headD ' ') = false) :
    render_interface_config action interface ip_address subnet_mask =
      ["interface " ++ interface, "no ip address", "shutdown"] := by
  have hunfold : render_interface_config action interface ip_address subnet_mask =
      ((pySplitLines ("\ninterface " ++ interface ++ "\nno ip address\nshutdown")).map
        pyStrip).filter (fun l => l ≠ "") := by
    simp only [render_interface_config, if_neg hact]
  have hl1 : ∀ c ∈ "interface ".data ++ interface.data, lineBreakChar c = false :=
    no_break_append (by decide) hi
  have hl2 : ∀ c ∈ "no ip address".data, lineBreakChar c = false := by decide
  have hl3 : ∀ c ∈ "shutdown".data, lineBreakChar c = false := by decide
  have hdata : ("\ninterface " ++ interface ++ "\nno ip address\nshutdown").data =
      '\n' :: (("interface ".data ++ interface.data) ++
        ('\n' :: ("no ip address".data ++ ('\n' :: "shutdown".data)))) := by
    simp only [String.data_append]
    simp [List.append_assoc, List.cons_append, List.singleton_append]
  have hnocr : ∀ c ∈ '\n' :: (("interface ".data ++ interface.data) ++
      ('\n' :: ("no ip address".data ++ ('\n' :: "shutdown".data)))), c ≠ '\r' :=
    no_cr_cons (by decide)
      (no_cr_append (no_cr_of_no_break hl1)
        (no_cr_cons (by decide)
          (no_cr_append (no_cr_of_no_break hl2)
            (no_cr_cons (by decide) (no_cr_of_no_break hl3)))))
  have hsplit : pySplitLines ("\ninterface " ++ interface ++ "\nno ip address\nshutdown") =
      ["", String.mk ("interface ".data ++ interface.data),
       String.mk "no ip address".data, String.mk "shutdown".data] := by
    unfold pySplitLines
    rw [hdata, collapseCRLF_of_no_cr _ hnocr]
    exact splitBreaks_three _ _ _ hl1 hl2 hl3 (by decide)
  have hl1form : "interface ".data ++ interface.data =
      'i' :: ("nterface ".data ++ interface.data) := by
    rw [show "interface ".data = 'i' :: "nterface ".data from rfl, List.cons_append]
  have hstrip1 : pyStrip (String.mk ("interface ".data ++ interface.data)) =
      String.mk ("interface ".data ++ interface.data) := by
    rw [hl1form]
    exact pyStrip_front_tail 'i' _ interface.data (by decide) hie
  have hseq1 : String.mk ("interface ".data ++ interface.data) =
      "interface " ++ interface := rfl
  have hne1 : ("interface " ++ interface) ≠ "" := by
    intro h
    have := congrArg String.data h
    simp [String.data_append] at this
  rw [hunfold, hsplit]
  simp only [List.map_cons, List.map_nil, show pyStrip "" = "" from rfl, hstrip1,
    show pyStrip (String.mk "no ip address".data) = String.mk "no ip address".data
      from by decide,
    show pyStrip (String.mk "shutdown".data) = String.mk "shutdown".data from by decide]
  rw [hseq1]
  simp [List.filter, hne1]

/-- The rendered first line is unchanged by strip when `interface` ends in a
non-whitespace character. -/
theorem pyStrip_interface_line (interface : String)
    (hie : pyIsSpace (interface.data.reverse.headD ' ') = false) :
    pyStrip ("interface " ++ interface) = "interface " ++ interface := by
  have e : String.mk ('i' :: ("nterface ".data ++ interface.data)) =
      "interface " ++ interface := by
    apply String.ext
    show 'i' :: ("nterface ".data ++ interface.data) = ("interface " ++ interface).data
    rw [String.data_append]
    simp [List.cons_append]
  have h := pyStrip_front_tail 'i' "nterface ".data interface.data (by decide) hie
  rw [e] at h
  exact h

/-- The rendered address line is unchanged by strip when `subnet_mask` ends in
a non-whitespace character. -/
theorem pyStrip_address_line (ip_address subnet_mask : String)
    (hme : pyIsSpace (subnet_mask.data.reverse.headD ' ') = false) :
    pyStrip ("ip address " ++ ip_address ++ " " ++ subnet_mask) =
      "ip address " ++ ip_address ++ " " ++ subnet_mask := by
  have e : String.mk ('i' :: (("p address ".data ++ (ip_address.data ++ [' '])) ++
      subnet_mask.data)) = "ip address " ++ ip_address ++ " " ++ subnet_mask := by
    apply String.ext
    show 'i' :: (("p address ".data ++ (ip_address.data ++ [' '])) ++ subnet_mask.data) =
      ("ip address " ++ ip_address ++ " " ++ subnet_mask).data
    simp only [String.data_append]
    simp [List.append_assoc, List.cons_append]
  have h := pyStrip_front_tail 'i' ("p address ".data ++ (ip_address.data ++ [' ']))
    subnet_mask.data (by decide) hme
  rw [e] at h
  exact h

/-- A string whose text begins `"interface "` is nonempty. -/
theorem interface_line_ne_empty (interface : String) :
    ("interface " ++ interface) ≠ "" := by
  intro h
  have := congrArg String.data h
  simp [String.data_append] at this

/-- A string whose text begins `"ip address "` is nonempty. -/
theorem address_line_ne_empty (ip_address subnet_mask : String) :
    ("ip address " ++ ip_address ++ " " ++ subnet_mask) ≠ "" := by
  intro h
  have := congrArg String.data h
  simp [String.data_append] at this

/-- C1 (amended): for every `interface`, `ip_address` and `subnet_mask` that
contain no line-boundary character, where `interface` and `subnet_mask` are
nonempty and do not end in a whitespace character,
`render_interface_config "create" interface ip_address subnet_mask` returns
exactly the three-element list `["interface " ++ interface, "ip address " ++
ip_address ++ " " ++ subnet_mask, "no shutdown"]`, in that order, with every
element non-empty and whitespace-trimmed; in particular the claimed concrete
instance holds (see the witness). -/
theorem render_create_config_amended (interface ip_address subnet_mask : String)
    (hi : ∀ c ∈ interface.data, lineBreakChar c = false)
    (ha : ∀ c ∈ ip_address.data, lineBreakChar c = false)
    (hm : ∀ c ∈ subnet_mask.data, lineBreakChar c = false)
    (hie : pyIsSpace (interface.data.reverse.headD ' ') = false)
    (hme : pyIsSpace (subnet_mask.data.reverse.headD ' ') = false) :
    render_interface_config "create" interface ip_address subnet_mask =
      ["interface " ++ interface,
       "ip address " ++ ip_address ++ " " ++ subnet_mask,
       "no shutdown"] ∧
    ∀ l ∈ render_interface_config "create" interface ip_address subnet_mask,
      l ≠ "" ∧ pyStrip l = l := by
  have heq := render_create_lines interface ip_address subnet_mask hi ha hm hie hme
  refine ⟨heq, ?_⟩
  rw [heq]
  intro l hl
  rcases List.mem_cons.mp hl with rfl | hl
  · exact ⟨interface_line_ne_empty interface, pyStrip_interface_line interface hie⟩
  rcases List.mem_cons.mp hl with rfl | hl
  · exact ⟨address_line_ne_empty ip_address subnet_mask,
      pyStrip_address_line ip_address subnet_mask hme⟩
  rcases List.mem_cons.mp hl with rfl | hl
  · exact ⟨by decide, by decide⟩
  · cases hl

/-- C1 witness: the amended theorem applied at the concrete inputs of the
claim's example. -/
theorem render_create_config_amended_witness :
    render_interface_config "create" "GigabitEthernet0/1" "10.0.0.1" "255.255.255.0" =
      ["interface GigabitEthernet0/1", "ip address 10.0.0.1 255.255.255.0",
       "no shutdown"] := by
  have h := (render_create_config_amended "GigabitEthernet0/1" "10.0.0.1"
    "255.255.255.0" (by decide) (by decide) (by decide) (by decide) (by decide)).1
  exact h

/-- C1 counterexample: as universally quantified over all strings, the claim
fails: a line break inside a value splits the stanza into more than three
lines, and a value that is empty or ends in whitespace is trimmed, so the
returned element differs from the claimed concatenation. -/
theorem render_create_config_counterexample :
    (render_interface_config "create" "a\nb" "10.0.0.1" "255.255.255.0" ≠
      ["interface a\nb", "ip address 10.0.0.1 255.255.255.0", "no shutdown"]) ∧
    (render_interface_config "create" "Gig0/1 " "10.0.0.1" "255.255.255.0" ≠
      ["interface Gig0/1 ", "ip address 10.0.0.1 255.255.255.0", "no shutdown"]) ∧
    (render_interface_config "create" "" "10.0.0.1" "255.255.255.0" ≠
      ["interface ", "ip address 10.0.0.1 255.255.255.0", "no shutdown"]) ∧
    (render_interface_config "create" "1.2\n3.4" "10.0.0.1" "255.255.255.0" ≠
      ["interface 1.2\n3.4", "ip address 10.0.0.1 255.255.255.0", "no shutdown"]) ∧
    (render_interface_config "create" "Gig0/1" "10.0.0.1" "255.255.255.0 " ≠
      ["interface Gig0/1", "ip address 10.0.0.1 255.255.255.0 ", "no shutdown"]) := by
  exact ⟨by decide, by decide, by decide, by decide, by decide⟩

/-- C2 (amended): for every action other than `"create"` and every
`interface` that contains no line-boundary character, is nonempty and does
not end in whitespace, `render_interface_config action interface ip_address
subnet_mask` returns exactly `["interface " ++ interface, "no ip address",
"shutdown"]`; and for ALL interface strings whatsoever (no restriction), two
runs differing only in the `ip_address` and `subnet_mask` arguments yield
equal output. -/
theorem render_delete_config_amended (action interface ip_address subnet_mask : String)
    (hact : action ≠ "create")
    (hi : ∀ c ∈ interface.data, lineBreakChar c = false)
    (hie : pyIsSpace (interface.data.reverse.headD ' ') = false) :
    render_interface_config action interface ip_address subnet_mask =
      ["interface " ++ interface, "no ip address", "shutdown"] ∧
    ∀ i2 a2 m2 a3 m3, render_interface_config action i2 a2 m2 =
      render_interface_config action i2 a3 m3 := by
  refine ⟨render_delete_lines action interface ip_address subnet_mask hact hi hie, ?_⟩
  intro i2 a2 m2 a3 m3
  simp only [render_interface_config, if_neg hact]

/-- C2 witness: the amended theorem at concrete inputs, including the
independence of the ip/mask arguments both at a well-formed interface and at
an interface outside the restricted set (one containing a newline). -/
theorem render_delete_config_amended_witness :
    render_interface_config "delete" "GigabitEthernet0/1" "10.0.0.1" "255.255.255.0" =
      ["interface GigabitEthernet0/1", "no ip address", "shutdown"] ∧
    render_interface_config "delete" "GigabitEthernet0/1" "x" "y" =
      render_interface_config "delete" "GigabitEthernet0/1" "10.0.0.1"
        "255.255.255.0" ∧
    render_interface_config "delete" "a\nb" "x" "y" =
      render_interface_config "delete" "a\nb" "10.0.0.1" "255.255.255.0" := by
  have h := render_delete_config_amended "delete" "GigabitEthernet0/1" "10.0.0.1"
    "255.255.255.0" (by decide) (by decide) (by decide)
  exact ⟨h.1, h.2 "GigabitEthernet0/1" "x" "y" "10.0.0.1" "255.255.255.0",
    h.2 "a\nb" "x" "y" "10.0.0.1" "255.255.255.0"⟩

/-- C2 counterexample: as universally quantified over all interface strings,
the claim fails: a line break inside `interface` yields four lines, and a
trailing space is trimmed so the element differs from the claimed
concatenation. -/
theorem render_delete_config_counterexample :
    (render_interface_config "delete" "a\nb" "10.0.0.1" "255.255.255.0" ≠
      ["interface a\nb", "no ip address", "shutdown"]) ∧
    (render_interface_config "delete" "Gig0/1 " "x" "y" ≠
      ["interface Gig0/1 ", "no ip address", "shutdown"]) := by
  exact ⟨by decide, by decide⟩

/-- The three possible outcomes of `connect_device`, with their traces. -/
theorem connect_device_cases (env : NetEnv) (device : ConnInfo) :
    (∃ e, env.connectResult device = .exn e ∧
      connect_device env device =
        (none, [.printed ("Error connecting to device " ++ device.host ++ ": " ++ e)])) ∨
    (∃ e, env.connectResult device = .ok () ∧ env.enableResult device = .exn e ∧
      connect_device env device =
        (none, [.opened device.host,
                .printed ("Error connecting to device " ++ device.host ++ ": " ++ e)])) ∨
    (env.connectResult device = .ok () ∧ env.enableResult device = .ok () ∧
      connect_device env device = (some device, [.opened device.host, .enabled])) := by
  cases hc : env.connectResult device with
  | exn e =>
    left
    exact ⟨e, rfl, by simp [connect_device, hc]⟩
  | ok u =>
    cases u
    cases he : env.enableResult device with
    | exn e =>
      right; left
      exact ⟨e, rfl, rfl, by simp [connect_device, hc, he]⟩
    | ok u2 =>
      cases u2
      right; right
      exact ⟨rfl, rfl, by simp [connect_device, hc, he]⟩

/-- A fully successful Netmiko environment, used by witnesses. -/
def okEnv : NetEnv :=
  ⟨fun _ => .ok (), fun _ => .ok (), fun _ => .ok "SHOW-OUTPUT",
   fun _ => .ok "CONFIG-OUTPUT"⟩

/-- An environment whose session open raises (unreachable host). -/
def failConnectEnv : NetEnv :=
  ⟨fun _ => .exn "timed out", fun _ => .ok (), fun _ => .ok "SHOW-OUTPUT",
   fun _ => .ok "CONFIG-OUTPUT"⟩

/-- An environment where the open succeeds but every send raises. -/
def failSendEnv : NetEnv :=
  ⟨fun _ => .ok (), fun _ => .ok (), fun _ => .exn "command rejected",
   fun _ => .exn "command rejected"⟩

/-- A device descriptor used by witnesses. -/
def testDevice : ConnInfo := ⟨"cisco_ios", "192.0.2.1", "admin", "pw", "pw"⟩

/-- C3: in `send_config`, whenever the session open succeeds, `disconnect`
appears exactly once in the trace on every execution path — both when the
batch send returns and when it raises — and an exception during the send is
converted into the textual result `"Error sending configuration: " ++ e`
returned to the caller (the result type is `String`, so nothing
propagates). -/
theorem send_config_close_once (env : NetEnv) (device : ConnInfo)
    (commands : List String)
    (hopen : (connect_device env device).1 ≠ none) :
    ((send_config env device commands).2.count .disconnected = 1) ∧
    (∀ out, env.configSetResult commands = .ok out →
      (send_config env device commands).1 = out) ∧
    (∀ e, env.configSetResult commands = .exn e →
      (send_config env device commands).1 =
        "Error sending configuration: " ++ e) := by
  rcases connect_device_cases env device with ⟨e, hc, hcd⟩ | ⟨e, hc, he, hcd⟩ |
    ⟨hc, he, hcd⟩
  · rw [hcd] at hopen
    simp at hopen
  · rw [hcd] at hopen
    simp at hopen
  · refine ⟨?_, ?_, ?_⟩
    · cases hcfg : env.configSetResult commands with
      | ok out =>
        simp [send_config, hcd, hcfg, List.count_append, List.count_cons]
      | exn e =>
        simp [send_config, hcd, hcfg, List.count_append, List.count_cons]
    · intro out hcfg
      simp [send_config, hcd, hcfg]
    · intro e hcfg
      simp [send_config, hcd, hcfg]

/-- C3 witness: with a successful open, the trace holds exactly one
disconnect both when the send succeeds and when it raises, and the raised
cause is returned as text. -/
theorem send_config_close_once_witness :
    ((send_config okEnv testDevice ["interface Gi0/1"]).2.count .disconnected = 1) ∧
    ((send_config failSendEnv testDevice ["interface Gi0/1"]).2.count
      .disconnected = 1) ∧
    ((send_config failSendEnv testDevice ["interface Gi0/1"]).1 =
      "Error sending configuration: command rejected") := by
  refine ⟨(send_config_close_once okEnv testDevice ["interface Gi0/1"]
      (by decide)).1,
    (send_config_close_once failSendEnv testDevice ["interface Gi0/1"]
      (by decide)).1, ?_⟩
  exact (send_config_close_once failSendEnv testDevice ["interface Gi0/1"]
    (by decide)).2.2 "command rejected" rfl

/-- C4: for every inventory record containing the keys `"Management IP"`,
`"Username"` and `"Password"`, `get_conn_info` returns the descriptor with
`device_type` fixed to `"cisco_ios"`, `host` equal to the record's
`"Management IP"`, and `secret` equal to the record's `"Password"` (the
embedding is a pure function of the record, so the record is unchanged). -/
theorem get_conn_info_fields (dev_data : List (String × String))
    (ip user pw : String)
    (h1 : dev_data.lookup "Management IP" = some ip)
    (h2 : dev_data.lookup "Username" = some user)
    (h3 : dev_data.lookup "Password" = some pw) :
    get_conn_info dev_data = .ok ⟨"cisco_ios", ip, user, pw, pw⟩ := by
  simp [get_conn_info, dictGet, bind, Except.bind, Functor.map, Except.map, pure, Except.pure, h1, h2, h3]

/-- C4 witness: a concrete inventory record. -/
theorem get_conn_info_fields_witness :
    get_conn_info [("Device Name", "R1"), ("Management IP", "192.0.2.1"),
      ("Username", "admin"), ("Password", "secret12")] =
      .ok ⟨"cisco_ios", "192.0.2.1", "admin", "secret12", "secret12"⟩ :=
  get_conn_info_fields _ "192.0.2.1" "admin" "secret12"
    (by decide) (by decide) (by decide)

/-- C5: `send_command` with an absent connection returns the literal sentinel
`"No connection available"` without raising (the result is `.ok`, not an
error), and with a present connection returns the device's raw output for the
command. -/
theorem send_command_sentinel (env : NetEnv) (command : String) :
    (send_command env none command = (.ok "No connection available", [])) ∧
    (∀ conn out, env.commandResult command = .ok out →
      send_command env (some conn) command = (.ok out, [.sentCommand command])) := by
  refine ⟨rfl, ?_⟩
  intro conn out h
  simp [send_command, h]

/-- C5 witness: the sentinel at a concrete command, and the raw output with a
present connection. -/
theorem send_command_sentinel_witness :
    send_command okEnv none "show version" = (.ok "No connection available", []) ∧
    send_command okEnv (some testDevice) "show version" =
      (.ok "SHOW-OUTPUT", [.sentCommand "show version"]) := by
  have h := send_command_sentinel okEnv "show version"
  exact ⟨h.1, h.2 testDevice "SHOW-OUTPUT" rfl⟩

/-- C6: when the session open fails, `send_config` returns the fixed string
`"Connection failed; configuration not sent."` (which reports the failure;
the underlying cause is printed by `connect_device` and appears in the
trace), sends nothing, and records no disconnect (nothing to close). -/
theorem send_config_open_fail (env : NetEnv) (device : ConnInfo)
    (commands : List String)
    (hfail : (connect_device env device).1 = none) :
    (send_config env device commands).1 =
      "Connection failed; configuration not sent." ∧
    (∀ ev ∈ (send_config env device commands).2, isSendEvent ev = false) ∧
    Event.disconnected ∉ (send_config env device commands).2 ∧
    (∀ e, env.connectResult device = .exn e →
      Event.printed ("Error connecting to device " ++ device.host ++ ": " ++ e) ∈
        (send_config env device commands).2) := by
  rcases connect_device_cases env device with ⟨e, hc, hcd⟩ | ⟨e, hc, he, hcd⟩ |
    ⟨hc, he, hcd⟩
  · have hsc : send_config env device commands =
        ("Connection failed; configuration not sent.",
         [.printed ("Error connecting to device " ++ device.host ++ ": " ++ e)]) := by
      simp [send_config, hcd]
    rw [hsc]
    refine ⟨rfl, ?_, by simp, ?_⟩
    · intro ev hev
      rcases List.mem_singleton.mp hev with rfl
      rfl
    · intro e2 he2
      rw [hc] at he2
      injection he2 with h2
      subst h2
      simp
  · have hsc : send_config env device commands =
        ("Connection failed; configuration not sent.",
         [.opened device.host,
          .printed ("Error connecting to device " ++ device.host ++ ": " ++ e)]) := by
      simp [send_config, hcd]
    rw [hsc]
    refine ⟨rfl, ?_, by simp, ?_⟩
    · intro ev hev
      rcases List.mem_cons.mp hev with rfl | hev
      · rfl
      rcases List.mem_singleton.mp hev with rfl
      rfl
    · intro e2 he2
      rw [hc] at he2
      cases he2
  · rw [hcd] at hfail
    simp at hfail

/-- C6 witness: an unreachable host (the open raises `"timed out"`). -/
theorem send_config_open_fail_witness :
    (send_config failConnectEnv testDevice ["interface Gi0/1"]).1 =
      "Connection failed; configuration not sent." ∧
    Event.disconnected ∉ (send_config failConnectEnv testDevice
      ["interface Gi0/1"]).2 ∧
    Event.printed "Error connecting to device 192.0.2.1: timed out" ∈
      (send_config failConnectEnv testDevice ["interface Gi0/1"]).2 := by
  have h := send_config_open_fail failConnectEnv testDevice ["interface Gi0/1"]
    (by decide)
  exact ⟨h.1, h.2.2.1, h.2.2.2 "timed out" rfl⟩

/-- C7: `get_conn_info` on a record missing a required key fails with the
missing-key error (Python `KeyError`, the malformed-inventory-record
failure); in particular a record missing `"Management IP"` fails with
`KeyError "Management IP"`. -/
theorem get_conn_info_missing_key (dev_data : List (String × String))
    (h : dev_data.lookup "Management IP" = none ∨
      dev_data.lookup "Username" = none ∨ dev_data.lookup "Password" = none) :
    (∃ k, get_conn_info dev_data = .error (.keyError k)) ∧
    (dev_data.lookup "Management IP" = none →
      get_conn_info dev_data = .error (.keyError "Management IP")) := by
  constructor
  · cases hm : dev_data.lookup "Management IP" with
    | none => exact ⟨"Management IP", by simp [get_conn_info, dictGet, bind, Except.bind, Functor.map, Except.map, pure, Except.pure, hm]⟩
    | some ip =>
      cases hu : dev_data.lookup "Username" with
      | none => exact ⟨"Username", by simp [get_conn_info, dictGet, bind, Except.bind, Functor.map, Except.map, pure, Except.pure, hm, hu]⟩
      | some user =>
        cases hp : dev_data.lookup "Password" with
        | none => exact ⟨"Password", by simp [get_conn_info, dictGet, bind, Except.bind, Functor.map, Except.map, pure, Except.pure, hm, hu, hp]⟩
        | some pw => rcases h with h | h | h <;> simp_all
  · intro hm
    simp [get_conn_info, dictGet, bind, Except.bind, Functor.map, Except.map, pure, Except.pure, hm]

/-- C7 witness: a record missing `"Management IP"`. -/
theorem get_conn_info_missing_key_witness :
    get_conn_info [("Username", "admin"), ("Password", "secret12")] =
      .error (.keyError "Management IP") :=
  (get_conn_info_missing_key [("Username", "admin"), ("Password", "secret12")]
    (Or.inl (by decide))).2 (by decide)

/-- An open failure with a different underlying cause than `failConnectEnv`,
used to show that the return value of `connect_device` carries no cause. -/
def refusedEnv : NetEnv :=
  ⟨fun _ => .exn "connection refused", fun _ => .ok (), fun _ => .ok "SHOW-OUTPUT",
   fun _ => .ok "CONFIG-OUTPUT"⟩

/-- C8 counterexample: on failure `connect_device` does not return an
error value carrying the host and cause — it returns `None`, and the return
value is the same `none` for two failures with different causes, so no
information about the cause (or host) is carried by the returned value. The
diagnostic is printed instead. -/
theorem connect_device_return_counterexample :
    (connect_device failConnectEnv testDevice).1 = none ∧
    (connect_device refusedEnv testDevice).1 = none ∧
    (connect_device failConnectEnv testDevice).1 =
      (connect_device refusedEnv testDevice).1 ∧
    (connect_device failConnectEnv testDevice).2 ≠
      (connect_device refusedEnv testDevice).2 := by
  exact ⟨rfl, rfl, rfl, by decide⟩

/-- C8 (amended): `connect_device` never raises past its boundary: for every
behaviour of the library it returns a pair (it is a total function into
`Option × trace`). On failure of the open or of the privilege elevation it
prints a diagnostic carrying the host and the underlying cause and returns
`None`; on success it returns the open, privilege-elevated session handle. -/
theorem connect_device_amended (env : NetEnv) (device : ConnInfo) :
    (∀ e, env.connectResult device = .exn e →
      connect_device env device =
        (none, [.printed ("Error connecting to device " ++ device.host ++ ": " ++ e)])) ∧
    (∀ e, env.connectResult device = .ok () → env.enableResult device = .exn e →
      connect_device env device =
        (none, [.opened device.host,
                .printed ("Error connecting to device " ++ device.host ++ ": " ++ e)])) ∧
    (env.connectResult device = .ok () → env.enableResult device = .ok () →
      connect_device env device = (some device, [.opened device.host, .enabled])) := by
  refine ⟨?_, ?_, ?_⟩
  · intro e h
    simp [connect_device, h]
  · intro e h1 h2
    simp [connect_device, h1, h2]
  · intro h1 h2
    simp [connect_device, h1, h2]

/-- C8 witness: the amended theorem at a failing and at a succeeding
environment. -/
theorem connect_device_amended_witness :
    connect_device failConnectEnv testDevice =
      (none, [.printed "Error connecting to device 192.0.2.1: timed out"]) ∧
    connect_device okEnv testDevice =
      (some testDevice, [.opened "192.0.2.1", .enabled]) := by
  refine ⟨?_, ?_⟩
  · exact (connect_device_amended failConnectEnv testDevice).1 "timed out" rfl
  · exact (connect_device_amended okEnv testDevice).2.2 rfl rfl

/-- C9: `get_interface_brief` follows the same lifecycle as `send_config`:
it opens its own session; on open failure it returns its failure string and
sends nothing; on success the trace holds exactly one disconnect (whatever
the send does), the only send event is the hardcoded
`"show ip interface brief"` command, and the result is the device output or
the error-describing string. -/
theorem get_interface_brief_lifecycle (env : NetEnv) (device : ConnInfo) :
    ((connect_device env device).1 = none →
      (get_interface_brief env device).1 =
        "Connection failed; cannot retrieve interface brief." ∧
      (∀ ev ∈ (get_interface_brief env device).2, isSendEvent ev = false)) ∧
    ((connect_device env device).1 ≠ none →
      ((get_interface_brief env device).2.count .disconnected = 1) ∧
      ((get_interface_brief env device).2.filter isSendEvent =
        [.sentCommand "show ip interface brief"]) ∧
      (∀ out, env.commandResult "show ip interface brief" = .ok out →
        (get_interface_brief env device).1 = out) ∧
      (∀ e, env.commandResult "show ip interface brief" = .exn e →
        (get_interface_brief env device).1 =
          "Error retrieving interface brief: " ++ e)) := by
  rcases connect_device_cases env device with ⟨e, hc, hcd⟩ | ⟨e, hc, he, hcd⟩ |
    ⟨hc, he, hcd⟩
  · constructor
    · intro _
      have hgb : get_interface_brief env device =
          ("Connection failed; cannot retrieve interface brief.",
           [.printed ("Error connecting to device " ++ device.host ++ ": " ++ e)]) := by
        simp [get_interface_brief, hcd]
      rw [hgb]
      refine ⟨rfl, ?_⟩
      intro ev hev
      rcases List.mem_singleton.mp hev with rfl
      rfl
    · intro hne
      rw [hcd] at hne
      simp at hne
  · constructor
    · intro _
      have hgb : get_interface_brief env device =
          ("Connection failed; cannot retrieve interface brief.",
           [.opened device.host,
            .printed ("Error connecting to device " ++ device.host ++ ": " ++ e)]) := by
        simp [get_interface_brief, hcd]
      rw [hgb]
      refine ⟨rfl, ?_⟩
      intro ev hev
      rcases List.mem_cons.mp hev with rfl | hev
      · rfl
      rcases List.mem_singleton.mp hev with rfl
      rfl
    · intro hne
      rw [hcd] at hne
      simp at hne
  · constructor
    · intro h0
      rw [hcd] at h0
      simp at h0
    · intro _
      refine ⟨?_, ?_, ?_, ?_⟩
      · cases hcr : env.commandResult "show ip interface brief" with
        | ok out =>
          simp [get_interface_brief, hcd, hcr, List.count_append, List.count_cons]
        | exn e =>
          simp [get_interface_brief, hcd, hcr, List.count_append, List.count_cons]
      · cases hcr : env.commandResult "show ip interface brief" with
        | ok out =>
          simp [get_interface_brief, hcd, hcr, List.filter_append, List.filter,
            isSendEvent]
        | exn e =>
          simp [get_interface_brief, hcd, hcr, List.filter_append, List.filter,
            isSendEvent]
      · intro out hcr
        simp [get_interface_brief, hcd, hcr]
      · intro e hcr
        simp [get_interface_brief, hcd, hcr]

/-- C9 witness: a successful run returns the raw output with one disconnect
and only the hardcoded command sent; a failed open returns the failure
string. -/
theorem get_interface_brief_lifecycle_witness :
    (get_interface_brief okEnv testDevice).1 = "SHOW-OUTPUT" ∧
    (get_interface_brief okEnv testDevice).2.count .disconnected = 1 ∧
    (get_interface_brief okEnv testDevice).2.filter isSendEvent =
      [.sentCommand "show ip interface brief"] ∧
    (get_interface_brief failConnectEnv testDevice).1 =
      "Connection failed; cannot retrieve interface brief." := by
  have h := (get_interface_brief_lifecycle okEnv testDevice).2 (by decide)
  have h2 := (get_interface_brief_lifecycle failConnectEnv testDevice).1 (by decide)
  exact ⟨h.2.2.1 "SHOW-OUTPUT" rfl, h.1, h.2.1, h2.1⟩

/-- C10: in the top-level source file, `connect_device`, `send_command`,
`send_config`, `render_interface_config` and `get_interface_brief` are
placeholders returning `None` for every input; `get_conn_info` coincides with
the task-4 version; and the two files are not equivalent — at the claim's
example input the task-4 renderer produces the documented three-line list
where the top-level one returns `None`. -/
theorem root_file_placeholders :
    (∀ env device, Root.connect_device env device = none) ∧
    (∀ env conn cmd, Root.send_command env conn cmd = none) ∧
    (∀ env device cmds, Root.send_config env device cmds = none) ∧
    (∀ a i p m, Root.render_interface_config a i p m = none) ∧
    (∀ env device, Root.get_interface_brief env device = none) ∧
    (∀ d, Root.rootGetConnInfo d = get_conn_info d) ∧
    (Root.render_interface_config "create" "GigabitEthernet0/1" "10.0.0.1"
        "255.255.255.0" = none ∧
      render_interface_config "create" "GigabitEthernet0/1" "10.0.0.1"
        "255.255.255.0" =
        ["interface GigabitEthernet0/1", "ip address 10.0.0.1 255.255.255.0",
         "no shutdown"]) := by
  exact ⟨fun _ _ => rfl, fun _ _ _ => rfl, fun _ _ _ => rfl, fun _ _ _ _ => rfl,
    fun _ _ => rfl, fun _ => rfl, rfl, by decide⟩
